import Mathlib

/-!
Verification of the corynth subprocess plugin protocol, as implemented by the
three example plugins of the repository:

  examples/plugins/file-plugin.py  (class FilePlugin and its main)
  examples/plugins/http-plugin.py  (class HttpPlugin and its main)
  test-calc.py                     (class CalculatorPlugin and its main)

The embedding follows the Python source line by line.  JSON values are the
inductive `JValue`; Python dictionaries are association lists with first-match
lookup; a Python exception caught by the plugin's `execute` is the `error`
case of `Except String`, carrying the string produced by `str(e)`.

External collaborators that the plugins call into but whose code is not part
of the repository are parameters of the model, collected in `World`:
the JSON parser behind `json.loads` (on non-blank text), the network client
behind `requests.get` and `requests.post`, and the Python expression
interpreter and rounding behind `eval` and `round` in the calculator.  The
file system is a string-to-string association list.
-/

set_option autoImplicit false

namespace Corynth

/-- A JSON value, the data moved over standard input and output.  Numbers are
rationals; the model does not distinguish Python int from float. -/
inductive JValue where
  | null
  | bool (b : Bool)
  | num (q : ℚ)
  | str (s : String)
  | arr (elems : List JValue)
  | obj (fields : List (String × JValue))

/-- First-match lookup in an association list, as Python dict lookup on the
(unique-key) dictionaries built by `json.loads` and by the plugin source. -/
def jLookup : List (String × JValue) → String → Option JValue
  | [], _ => none
  | (k, v) :: rest, key => if k = key then some v else jLookup rest key

/-- Field access on a JSON value: the field of an object, absent otherwise. -/
def JValue.getField : JValue → String → Option JValue
  | .obj fields, key => jLookup fields key
  | _, _ => none

/-- Python truthiness of a JSON value: None, False, zero, and empty
containers are falsy. -/
def JValue.truthy : JValue → Bool
  | .null => false
  | .bool b => b
  | .num q => !(q == 0)
  | .str s => !(s == "")
  | .arr elems => !elems.isEmpty
  | .obj fields => !fields.isEmpty

/-- Truthiness of the result of `dict.get`: an absent key gives Python None,
which is falsy. -/
def truthyOpt : Option JValue → Bool
  | none => false
  | some v => v.truthy

/-- The Python type name of a JSON value, used in type-error messages.
The int/float distinction is collapsed to float. -/
def pyTypeName : JValue → String
  | .null => "NoneType"
  | .bool _ => "bool"
  | .num _ => "float"
  | .str _ => "str"
  | .arr _ => "list"
  | .obj _ => "dict"

/-- `params.get(key)`: succeeds with the optional field on a dictionary and
raises an AttributeError on any other value, as in Python.  (The model keeps
the message apostrophe-free; only its presence matters.) -/
def pyGet (params : JValue) (key : String) : Except String (Option JValue) :=
  match params with
  | .obj fields => .ok (jLookup fields key)
  | v => .error (pyTypeName v ++ " object has no attribute get")

/-- The uniform domain-error response `dict(error = m)` produced by every
plugin's `execute` when a handler raises. -/
def errObj (m : String) : JValue := .obj [("error", .str m)]

/-- Python `str.strip()`: drop surrounding whitespace. -/
def pyStrip (s : String) : String :=
  String.mk (((s.toList.dropWhile Char.isWhitespace).reverse.dropWhile
    Char.isWhitespace).reverse)

/-- `json.loads` on text `s`, given a parser `p` for non-blank text: blank
input never parses (json.loads raises Expecting value on it); `none` models
a raised json.JSONDecodeError. -/
def jsonLoads (p : String → Option JValue) (s : String) : Option JValue :=
  if pyStrip s = "" then none else p s

/-- The file system seen by the file plugin: an association list from path to
file contents, newest entry first.  Writes always succeed in the model;
reads fail on absent paths (FileNotFoundError). -/
abbrev FS := List (String × String)

/-- Contents at a path, first (newest) match. -/
def fsLookup : FS → String → Option String
  | [], _ => none
  | (p, c) :: rest, path => if p = path then some c else fsLookup rest path

/-- `open(path, "w")` followed by `f.write(content)`: the new entry shadows
any older one. -/
def fsWrite (fs : FS) (path content : String) : FS := (path, content) :: fs

/-- `os.path.dirname`: the part of the path before the final slash, with
trailing slashes stripped unless the result is all slashes. -/
def osDirname (p : String) : String :=
  let rev := p.toList.reverse.dropWhile (fun c => !(c == '/'))
  if rev.isEmpty then ""
  else
    let headRev := rev.dropWhile (fun c => c == '/')
    if headRev.isEmpty then String.mk rev.reverse
    else String.mk headRev.reverse

namespace FilePlugin

/-- `FilePlugin.metadata`, set in `__init__` and returned by
`get_metadata`. -/
def metadata : JValue := .obj [
  ("name", .str "file"),
  ("version", .str "1.0.0"),
  ("description", .str "File system operations (read, write, copy, move)"),
  ("author", .str "Corynth Team"),
  ("tags", .arr [.str "file", .str "filesystem", .str "io"])]

/-- `FilePlugin.get_actions`: the action catalog. -/
def get_actions : JValue := .obj [
  ("read", .obj [
    ("description", .str "Read file contents"),
    ("inputs", .obj [
      ("path", .obj [("type", .str "string"), ("required", .bool true),
        ("description", .str "File path to read")])]),
    ("outputs", .obj [
      ("content", .obj [("type", .str "string"),
        ("description", .str "File contents")])])]),
  ("write", .obj [
    ("description", .str "Write content to file"),
    ("inputs", .obj [
      ("path", .obj [("type", .str "string"), ("required", .bool true),
        ("description", .str "File path to write")]),
      ("content", .obj [("type", .str "string"), ("required", .bool true),
        ("description", .str "Content to write")]),
      ("create_dirs", .obj [("type", .str "boolean"), ("required", .bool false),
        ("default", .bool false),
        ("description", .str "Create parent directories if needed")])]),
    ("outputs", .obj [
      ("success", .obj [("type", .str "boolean"),
        ("description", .str "Write operation success")])])])]

/-- `FilePlugin._handle_read`: fetch `path`, require it truthy, then read the
file.  A non-string truthy path makes `open` raise a TypeError; an absent
file raises FileNotFoundError, whose `str` names the path. -/
def handle_read (fs : FS) (params : JValue) : Except String (FS × JValue) :=
  match pyGet params "path" with
  | .error m => .error m
  | .ok path =>
    if truthyOpt path = false then .error "path parameter is required"
    else
      match path with
      | some (.str p) =>
        match fsLookup fs p with
        | some content => .ok (fs, .obj [("content", .str content)])
        | none => .error ("[Errno 2] No such file or directory: " ++ p)
      | _ => .error ("expected str, bytes or os.PathLike object, not "
          ++ pyTypeName ((path).getD .null))

/-- `FilePlugin._handle_write`: fetch `path`, `content` (defaulting to the
empty string), and `create_dirs` (defaulting to False); require `path`
truthy; optionally `os.makedirs(os.path.dirname(path))`, which raises when
the dirname is empty; then write.  Writing a non-string raises a
TypeError. -/
def handle_write (fs : FS) (params : JValue) : Except String (FS × JValue) :=
  match pyGet params "path" with
  | .error m => .error m
  | .ok path =>
    match pyGet params "content" with
    | .error m => .error m
    | .ok contentOpt =>
      let content := contentOpt.getD (.str "")
      match pyGet params "create_dirs" with
      | .error m => .error m
      | .ok cdOpt =>
        let create_dirs := cdOpt.getD (.bool false)
        if truthyOpt path = false then .error "path parameter is required"
        else
          match path with
          | some (.str p) =>
            if create_dirs.truthy && (osDirname p == "") then
              .error "[Errno 2] No such file or directory: "
            else
              match content with
              | .str c => .ok (fsWrite fs p c, .obj [("success", .bool true)])
              | _ => .error ("write() argument must be str, not "
                  ++ pyTypeName content)
          | _ => .error ("expected str, bytes or os.PathLike object, not "
              ++ pyTypeName ((path).getD .null))

end FilePlugin

/-- The reply of the external `requests` client: status code, headers and
body, which the http plugin repackages into its response object. -/
structure HttpResp where
  status_code : ℚ
  headers : List (String × JValue)
  body : String

/-- Model of `requests.get url headers timeout`: an error is a raised
requests exception, caught by `execute`. -/
abbrev HttpGetFn := JValue → JValue → JValue → Except String HttpResp

/-- Model of `requests.post url data headers timeout`. -/
abbrev HttpPostFn := JValue → JValue → JValue → JValue → Except String HttpResp

namespace HttpPlugin

/-- `HttpPlugin.metadata`. -/
def metadata : JValue := .obj [
  ("name", .str "http"),
  ("version", .str "1.0.0"),
  ("description", .str "HTTP client for REST API calls and web requests"),
  ("author", .str "Corynth Team"),
  ("tags", .arr [.str "http", .str "web", .str "api", .str "rest"])]

/-- `HttpPlugin.get_actions`. -/
def get_actions : JValue := .obj [
  ("get", .obj [
    ("description", .str "Perform HTTP GET request"),
    ("inputs", .obj [
      ("url", .obj [("type", .str "string"), ("required", .bool true),
        ("description", .str "URL to request")]),
      ("headers", .obj [("type", .str "object"), ("required", .bool false),
        ("description", .str "Request headers")]),
      ("timeout", .obj [("type", .str "number"), ("required", .bool false),
        ("default", .num 30),
        ("description", .str "Request timeout in seconds")])]),
    ("outputs", .obj [
      ("status_code", .obj [("type", .str "number"),
        ("description", .str "HTTP status code")]),
      ("headers", .obj [("type", .str "object"),
        ("description", .str "Response headers")]),
      ("body", .obj [("type", .str "string"),
        ("description", .str "Response body")])])]),
  ("post", .obj [
    ("description", .str "Perform HTTP POST request"),
    ("inputs", .obj [
      ("url", .obj [("type", .str "string"), ("required", .bool true),
        ("description", .str "URL to request")]),
      ("body", .obj [("type", .str "string"), ("required", .bool false),
        ("description", .str "Request body")]),
      ("headers", .obj [("type", .str "object"), ("required", .bool false),
        ("description", .str "Request headers")]),
      ("timeout", .obj [("type", .str "number"), ("required", .bool false),
        ("default", .num 30),
        ("description", .str "Request timeout in seconds")])]),
    ("outputs", .obj [
      ("status_code", .obj [("type", .str "number"),
        ("description", .str "HTTP status code")]),
      ("headers", .obj [("type", .str "object"),
        ("description", .str "Response headers")]),
      ("body", .obj [("type", .str "string"),
        ("description", .str "Response body")])])])]

/-- `HttpPlugin._handle_get`: fetch `url`, `headers` (default empty dict),
`timeout` (default 30); require `url` truthy; call the client and repackage
its reply. -/
def handle_get (doGet : HttpGetFn) (params : JValue) : Except String JValue :=
  match pyGet params "url" with
  | .error m => .error m
  | .ok url =>
    match pyGet params "headers" with
    | .error m => .error m
    | .ok headersOpt =>
      let headers := headersOpt.getD (.obj [])
      match pyGet params "timeout" with
      | .error m => .error m
      | .ok timeoutOpt =>
        let timeout := timeoutOpt.getD (.num 30)
        if truthyOpt url = false then .error "url parameter is required"
        else
          match doGet ((url).getD .null) headers timeout with
          | .error m => .error m
          | .ok r => .ok (.obj [("status_code", .num r.status_code),
              ("headers", .obj r.headers), ("body", .str r.body)])

/-- `HttpPlugin._handle_post`: as `handle_get`, with a `body` parameter
defaulting to the empty string, passed as the request data. -/
def handle_post (doPost : HttpPostFn) (params : JValue) : Except String JValue :=
  match pyGet params "url" with
  | .error m => .error m
  | .ok url =>
    match pyGet params "body" with
    | .error m => .error m
    | .ok bodyOpt =>
      let body := bodyOpt.getD (.str "")
      match pyGet params "headers" with
      | .error m => .error m
      | .ok headersOpt =>
        let headers := headersOpt.getD (.obj [])
        match pyGet params "timeout" with
        | .error m => .error m
        | .ok timeoutOpt =>
          let timeout := timeoutOpt.getD (.num 30)
          if truthyOpt url = false then .error "url parameter is required"
          else
            match doPost ((url).getD .null) body headers timeout with
            | .error m => .error m
            | .ok r => .ok (.obj [("status_code", .num r.status_code),
                ("headers", .obj r.headers), ("body", .str r.body)])

end HttpPlugin

/-- The value of a Python `eval` of an arithmetic expression: a number, or
some non-numeric value (with the character allowlist of the calculator, only
the empty tuple is reachable). -/
inductive EvalRes where
  | num (q : ℚ)
  | nonNum

/-- Model of `eval expression` under empty builtins: an error is a raised
exception (SyntaxError, ZeroDivisionError, ...), carrying `str(e)`. -/
abbrev EvalFn := String → Except String EvalRes

/-- Model of `round(float(result), precision)`, taking the raw precision
value; an error is a raised exception (TypeError, OverflowError, ...). -/
abbrev RoundFn := ℚ → JValue → Except String ℚ

namespace CalculatorPlugin

/-- `CalculatorPlugin.metadata`. -/
def metadata : JValue := .obj [
  ("name", .str "calculator"),
  ("version", .str "1.0.0"),
  ("description", .str "Mathematical calculations and unit conversions"),
  ("author", .str "Corynth Team"),
  ("tags", .arr [.str "math", .str "calculation", .str "utility"])]

/-- `CalculatorPlugin.get_actions`. -/
def get_actions : JValue := .obj [
  ("calculate", .obj [
    ("description", .str "Perform mathematical calculations"),
    ("inputs", .obj [
      ("expression", .obj [("type", .str "string"), ("required", .bool true),
        ("description", .str "Mathematical expression to evaluate")]),
      ("precision", .obj [("type", .str "number"), ("required", .bool false),
        ("default", .num 2), ("description", .str "Decimal precision")])]),
    ("outputs", .obj [
      ("result", .obj [("type", .str "number"),
        ("description", .str "Calculation result")]),
      ("expression", .obj [("type", .str "string"),
        ("description", .str "Original expression")])])])]

/-- The character allowlist guarding `eval`. -/
def allowed_chars : List Char := "0123456789+-*/.()\n\t ".toList

/-- `CalculatorPlugin._handle_calculate`: fetch `expression` and `precision`
(default 2); require `expression` truthy; a non-string expression makes the
character loop raise a TypeError; reject disallowed characters; then the
inner try evaluates and rounds, and any failure there is re-raised as
ValueError with an Invalid expression prefix. -/
def handle_calculate (ev : EvalFn) (rd : RoundFn) (params : JValue) :
    Except String JValue :=
  match pyGet params "expression" with
  | .error m => .error m
  | .ok exprOpt =>
    match pyGet params "precision" with
    | .error m => .error m
    | .ok precOpt =>
      let precision := precOpt.getD (.num 2)
      if truthyOpt exprOpt = false then
        .error "expression parameter is required"
      else
        match exprOpt with
        | some (.str e) =>
          if !(e.toList.all (fun c => allowed_chars.contains c)) then
            .error "Expression contains invalid characters"
          else
            match ev e with
            | .error m => .error ("Invalid expression: " ++ m)
            | .ok .nonNum =>
              .error "Invalid expression: Expression must result in a number"
            | .ok (.num q) =>
              match rd q precision with
              | .error m => .error ("Invalid expression: " ++ m)
              | .ok q2 => .ok (.obj [("result", .num q2),
                  ("expression", .str e)])
        | some v => .error (pyTypeName v ++ " object is not iterable")
        | none => .error "expression parameter is required"

end CalculatorPlugin

/-- The three plugins of the repository. -/
inductive PluginId where
  | file
  | http
  | calculator
deriving DecidableEq

/-- The ambient state and external collaborators of one plugin process:
the file system, the network client, the Python interpreter services, and
the JSON parser for non-blank text. -/
structure World where
  fs : FS
  doGet : HttpGetFn
  doPost : HttpPostFn
  ev : EvalFn
  rd : RoundFn
  parse : String → Option JValue

/-- `get_metadata` of each plugin. -/
def pluginMetadata : PluginId → JValue
  | .file => FilePlugin.metadata
  | .http => HttpPlugin.metadata
  | .calculator => CalculatorPlugin.metadata

/-- `get_actions` of each plugin: the action catalog. -/
def pluginCatalog : PluginId → JValue
  | .file => FilePlugin.get_actions
  | .http => HttpPlugin.get_actions
  | .calculator => CalculatorPlugin.get_actions

/-- The action registry behind each plugin's `execute`: the if/elif chain of
the source, mapping an action name to its handler.  A handler returns the
updated world and the success dictionary, or the raised exception. -/
def pluginHandler (w : World) (pid : PluginId) (a : String) :
    Option (JValue → Except String (World × JValue)) :=
  match pid with
  | .file =>
    if a = "read" then
      some (fun p =>
        match FilePlugin.handle_read w.fs p with
        | .ok r => .ok ({ w with fs := r.1 }, r.2)
        | .error m => .error m)
    else if a = "write" then
      some (fun p =>
        match FilePlugin.handle_write w.fs p with
        | .ok r => .ok ({ w with fs := r.1 }, r.2)
        | .error m => .error m)
    else none
  | .http =>
    if a = "get" then
      some (fun p =>
        match HttpPlugin.handle_get w.doGet p with
        | .ok v => .ok (w, v)
        | .error m => .error m)
    else if a = "post" then
      some (fun p =>
        match HttpPlugin.handle_post w.doPost p with
        | .ok v => .ok (w, v)
        | .error m => .error m)
    else none
  | .calculator =>
    if a = "calculate" then
      some (fun p =>
        match CalculatorPlugin.handle_calculate w.ev w.rd p with
        | .ok v => .ok (w, v)
        | .error m => .error m)
    else none

/-- `execute(action, params)` of each plugin: dispatch through the registry
inside a try/except that turns an unknown action (a raised ValueError) and
any handler exception into the uniform error object. -/
def pluginExecute (w : World) (pid : PluginId) (a : String) (p : JValue) :
    World × JValue :=
  match pluginHandler w pid a with
  | some h =>
    match h p with
    | .ok r => r
    | .error m => (w, errObj m)
  | none => (w, errObj ("Unknown action: " ++ a))

/-- A standard-input stream: its full contents, and whether the underlying
file descriptor is seekable (false for the pipe a host normally supplies). -/
structure Stdin where
  content : String
  seekable : Bool

/-- The parameter-reading block of the file and calculator plugin mains:
read stdin, strip; empty text gives the empty dict; otherwise parse, and a
json.JSONDecodeError silently gives the empty dict. -/
def readParamsSimple (p : String → Option JValue) (stdin : Stdin) : JValue :=
  let params_data := pyStrip stdin.content
  if params_data = "" then .obj []
  else
    match jsonLoads p params_data with
    | some v => v
    | none => .obj []

/-- The parameter-reading block of the http plugin main.  Its first line
evaluates `sys.stdin.read()` as the condition, exhausting the stream:
on non-empty input the branch then parses a second, empty read, whose
json.JSONDecodeError is caught and gives the empty dict, skipping the rest
of the try block.  On empty input it reaches `sys.stdin.seek(0)`, which on a
non-seekable stream raises an io.UnsupportedOperation that no except clause
catches; on a seekable stream the re-read of the empty input again gives the
empty dict. -/
def readParamsHttp (_p : String → Option JValue) (stdin : Stdin) :
    Except String JValue :=
  if stdin.content = "" then
    if stdin.seekable then .ok (.obj [])
    else .error "underlying stream is not seekable"
  else .ok (.obj [])

/-- The request reader of each plugin main. -/
def pluginRead (w : World) (pid : PluginId) (stdin : Stdin) :
    Except String JValue :=
  match pid with
  | .http => readParamsHttp w.parse stdin
  | .file => .ok (readParamsSimple w.parse stdin)
  | .calculator => .ok (readParamsSimple w.parse stdin)

/-- The observable end of one plugin process: the JSON documents printed to
standard output in order, and the exit code; or a crash from an uncaught
exception, which prints a traceback to standard error and exits with
code 1. -/
inductive ProcOut where
  | exited (out : List JValue) (code : Nat)
  | crashed (out : List JValue) (msg : String)

/-- The exit code of a process outcome; a Python process dying of an
uncaught exception exits with code 1. -/
def ProcOut.code : ProcOut → Nat
  | .exited _ c => c
  | .crashed _ _ => 1

/-- `main()` of each plugin: without an action argument print the protocol
failure and exit 1; otherwise read parameters from stdin, then either answer
the reserved introspection actions directly or dispatch through `execute`,
print the one resulting JSON document and exit 0.  `argv` is the argument
list after the program name, so the source guard len(sys.argv) less than 2
is emptiness of `argv`. -/
def runPlugin (w : World) (pid : PluginId) (argv : List String)
    (stdin : Stdin) : World × ProcOut :=
  match argv with
  | [] => (w, .exited [errObj "action required as first argument"] 1)
  | action :: _ =>
    match pluginRead w pid stdin with
    | .error m => (w, .crashed [] m)
    | .ok params =>
      if action = "metadata" then (w, .exited [pluginMetadata pid] 0)
      else if action = "actions" then (w, .exited [pluginCatalog pid] 0)
      else ((pluginExecute w pid action params).1,
            .exited [(pluginExecute w pid action params).2] 0)

/-- Is a declared input parameter marked required in the catalog? -/
def isRequiredTrue : JValue → Bool
  | .obj fields =>
    match jLookup fields "required" with
    | some (.bool true) => true
    | _ => false
  | _ => false

/-- The names of the required inputs among one action's declared inputs. -/
def requiredOfInputs : List (String × JValue) → List String
  | [] => []
  | (pname, spec) :: rest =>
    if isRequiredTrue spec then pname :: requiredOfInputs rest
    else requiredOfInputs rest

/-- All (action, parameter) pairs a catalog declares as required inputs. -/
def requiredInputsGo : List (String × JValue) → List (String × String)
  | [] => []
  | (aname, aspec) :: rest =>
    (match aspec.getField "inputs" with
     | some (.obj inputs) =>
       (requiredOfInputs inputs).map (fun pname => (aname, pname))
     | _ => []) ++ requiredInputsGo rest

/-- The required-input pairs of a catalog value. -/
def requiredInputs (catalog : JValue) : List (String × String) :=
  match catalog with
  | .obj actions => requiredInputsGo actions
  | _ => []

/-- A concrete world for closed evaluations: empty file system, a network
client that always fails, an interpreter that rejects everything, identity
rounding, and a parser that accepts nothing. -/
def trivWorld : World where
  fs := []
  doGet := fun _ _ _ => .error "connection refused"
  doPost := fun _ _ _ _ => .error "connection refused"
  ev := fun _ => .error "invalid syntax"
  rd := fun q _ => .ok q
  parse := fun _ => none

/-! ## Shared lemmas -/

/-- The required inputs the file plugin catalog declares. -/
theorem requiredInputs_file :
    requiredInputs (pluginCatalog .file) =
      [("read", "path"), ("write", "path"), ("write", "content")] := rfl

/-- The required inputs the http plugin catalog declares. -/
theorem requiredInputs_http :
    requiredInputs (pluginCatalog .http) =
      [("get", "url"), ("post", "url")] := rfl

/-- The required inputs the calculator plugin catalog declares. -/
theorem requiredInputs_calculator :
    requiredInputs (pluginCatalog .calculator) =
      [("calculate", "expression")] := rfl

/-- The calculator plugin touches no ambient state: its `execute` leaves the
world unchanged whatever the action and parameters. -/
theorem pluginExecute_calculator_fst (w : World) (a : String) (p : JValue) :
    (pluginExecute w .calculator a p).1 = w := by
  by_cases hc : a = "calculate"
  · subst hc
    simp only [pluginExecute, pluginHandler, if_pos rfl]
    cases h : CalculatorPlugin.handle_calculate w.ev w.rd p <;> simp [h]
  · simp [pluginExecute, pluginHandler, hc]

/-! ## The claims -/

/-- Claim C1: for every plugin, every non-reserved action and every params
object reaching `execute`, a handler that raises an exception with message
`m` makes `execute` return exactly the error object with message `m`, and
the process still prints that single response and exits with code 0 — the
handler failure never becomes a crash or a non-zero exit.  (A handler in the
registry is automatically non-reserved: `metadata` and `actions` are never
in the registry.) -/
theorem c1_handler_failure_uniform_error (w : World) (pid : PluginId)
    (a : String) (params : JValue)
    (h : JValue → Except String (World × JValue)) (m : String)
    (rest : List String) (stdin : Stdin)
    (hh : pluginHandler w pid a = some h)
    (he : h params = .error m)
    (hread : pluginRead w pid stdin = .ok params) :
    (pluginExecute w pid a params).2 = errObj m ∧
    runPlugin w pid (a :: rest) stdin = (w, .exited [errObj m] 0) := by
  have hex : pluginExecute w pid a params = (w, errObj m) := by
    simp [pluginExecute, hh, he]
  have hma : a ≠ "metadata" := by
    intro heq; subst heq
    cases pid <;> simp [pluginHandler] at hh
  have hac : a ≠ "actions" := by
    intro heq; subst heq
    cases pid <;> simp [pluginHandler] at hh
  exact ⟨by rw [hex], by simp [runPlugin, hread, hma, hac, hex]⟩

/-- Witness for C1: the file plugin read handler raises on a missing path,
and the process converts this into the error response with exit code 0. -/
theorem c1_handler_failure_uniform_error_witness :
    (pluginExecute trivWorld .file "read" (.obj [])).2 =
      errObj "path parameter is required" ∧
    runPlugin trivWorld .file ["read"] ⟨"", true⟩ =
      (trivWorld, .exited [errObj "path parameter is required"] 0) :=
  c1_handler_failure_uniform_error trivWorld .file "read" (.obj []) _
    "path parameter is required" [] ⟨"", true⟩ rfl rfl rfl

/-- Claim C2 fails on the code: the http plugin invoked with an action
argument and empty standard input on a non-seekable stream (a pipe) crashes
in `sys.stdin.seek(0)` with an uncaught exception, printing no JSON document
at all; the file plugin on the same invocation prints exactly one document
and exits 0. -/
theorem c2_single_response_refuted_by_http_seek_crash :
    runPlugin trivWorld .http ["get"] ⟨"", false⟩ =
      (trivWorld, .crashed [] "underlying stream is not seekable") ∧
    runPlugin trivWorld .file ["get"] ⟨"", false⟩ =
      (trivWorld, .exited [errObj "Unknown action: get"] 0) :=
  ⟨rfl, rfl⟩

/-- Claim C3, first half confirmed and second half refuted: every plugin
invoked with zero action arguments prints the fixed protocol-failure object
and exits 1; but that is not the only non-zero exit, because the http plugin
with an action argument and empty piped stdin dies of the uncaught seek
exception, also exiting 1. -/
theorem c3_missing_action_not_sole_nonzero_exit :
    (∀ (w : World) (pid : PluginId) (stdin : Stdin),
      runPlugin w pid [] stdin =
        (w, .exited [errObj "action required as first argument"] 1)) ∧
    (runPlugin trivWorld .http ["post"] ⟨"", false⟩).2.code = 1 :=
  ⟨fun _ _ _ => rfl, rfl⟩

/-- Claim C4: for every plugin, an action that is neither reserved nor in
the action registry makes `execute` return exactly the Unknown action error
object, and a process whose reader produced the params prints that single
response and exits 0. -/
theorem c4_unknown_action_error (w : World) (pid : PluginId) (a : String)
    (params : JValue) (rest : List String) (stdin : Stdin)
    (hm : a ≠ "metadata") (hc : a ≠ "actions")
    (hreg : pluginHandler w pid a = none)
    (hread : pluginRead w pid stdin = .ok params) :
    (pluginExecute w pid a params).2 = errObj ("Unknown action: " ++ a) ∧
    runPlugin w pid (a :: rest) stdin =
      (w, .exited [errObj ("Unknown action: " ++ a)] 0) := by
  have hex : pluginExecute w pid a params =
      (w, errObj ("Unknown action: " ++ a)) := by
    simp [pluginExecute, hreg]
  exact ⟨by rw [hex], by simp [runPlugin, hread, hm, hc, hex]⟩

/-- Witness for C4: the file plugin on the unknown action frobnicate. -/
theorem c4_unknown_action_error_witness :
    (pluginExecute trivWorld .file "frobnicate" (.obj [])).2 =
      errObj ("Unknown action: " ++ "frobnicate") ∧
    runPlugin trivWorld .file ["frobnicate"] ⟨"", true⟩ =
      (trivWorld, .exited [errObj ("Unknown action: " ++ "frobnicate")] 0) :=
  c4_unknown_action_error trivWorld .file "frobnicate" (.obj []) []
    ⟨"", true⟩ (by decide) (by decide) rfl rfl

/-- Claim C5, mostly confirmed but refuted at one input: for every plugin
the request reader yields the empty params object on blank stdin (when the
stream is seekable) and on unparsable non-empty stdin; but the http plugin
reader with blank stdin on a non-seekable stream raises instead of yielding
the empty object, the same uncaught-seek code bug as C2. -/
theorem c5_reader_empty_default_and_crash :
    (∀ (w : World) (pid : PluginId) (stdin : Stdin),
        pyStrip stdin.content = "" → stdin.seekable = true →
        pluginRead w pid stdin = .ok (.obj [])) ∧
    (∀ (w : World) (pid : PluginId) (stdin : Stdin),
        stdin.content ≠ "" →
        jsonLoads w.parse (pyStrip stdin.content) = none →
        pluginRead w pid stdin = .ok (.obj [])) ∧
    pluginRead trivWorld .http ⟨"", false⟩ =
      .error "underlying stream is not seekable" := by
  refine ⟨?_, ?_, rfl⟩
  · intro w pid stdin hs hseek
    cases pid
    · simp [pluginRead, readParamsSimple, hs]
    · by_cases hco : stdin.content = ""
      · simp [pluginRead, readParamsHttp, hco, hseek]
      · simp [pluginRead, readParamsHttp, hco]
    · simp [pluginRead, readParamsSimple, hs]
  · intro w pid stdin hne hparse
    cases pid
    · by_cases hs : pyStrip stdin.content = ""
      · simp [pluginRead, readParamsSimple, hs]
      · simp [pluginRead, readParamsSimple, hs, hparse]
    · simp [pluginRead, readParamsHttp, hne]
    · by_cases hs : pyStrip stdin.content = ""
      · simp [pluginRead, readParamsSimple, hs]
      · simp [pluginRead, readParamsSimple, hs, hparse]

/-- Witness for C5: whitespace-only stdin for the file plugin and
unparsable stdin for the calculator plugin both yield empty params. -/
theorem c5_reader_empty_default_and_crash_witness :
    pluginRead trivWorld .file ⟨"  ", true⟩ = .ok (.obj []) ∧
    pluginRead trivWorld .calculator ⟨"not json", true⟩ = .ok (.obj []) :=
  ⟨c5_reader_empty_default_and_crash.1 trivWorld .file ⟨"  ", true⟩ rfl rfl,
   c5_reader_empty_default_and_crash.2.1 trivWorld .calculator
     ⟨"not json", true⟩ (by decide) rfl⟩

/-- Claim C6 as amended: for every plugin and every (action, parameter) pair
the catalog declares required — except the file plugin write action content
parameter — invoking the action with a params object lacking that parameter
returns exactly the error naming it. -/
theorem c6_required_param_error_amended (w : World) (pid : PluginId)
    (a r : String) (fields : List (String × JValue))
    (hreq : (a, r) ∈ requiredInputs (pluginCatalog pid))
    (hexc : ¬(pid = .file ∧ a = "write" ∧ r = "content"))
    (habs : jLookup fields r = none) :
    (pluginExecute w pid a (.obj fields)).2 =
      errObj (r ++ " parameter is required") := by
  cases pid
  · rw [requiredInputs_file] at hreq
    simp only [List.mem_cons, List.not_mem_nil, or_false,
      Prod.mk.injEq] at hreq
    rcases hreq with ⟨rfl, rfl⟩ | ⟨rfl, rfl⟩ | ⟨rfl, rfl⟩
    · have hres : (pluginExecute w .file "read" (.obj fields)).2 =
          errObj "path parameter is required" := by
        simp [pluginExecute, pluginHandler, FilePlugin.handle_read, pyGet,
          habs, truthyOpt]
      rw [hres]; exact rfl
    · have hres : (pluginExecute w .file "write" (.obj fields)).2 =
          errObj "path parameter is required" := by
        simp [pluginExecute, pluginHandler, FilePlugin.handle_write, pyGet,
          habs, truthyOpt]
      rw [hres]; exact rfl
    · exact absurd ⟨rfl, rfl, rfl⟩ hexc
  · rw [requiredInputs_http] at hreq
    simp only [List.mem_cons, List.not_mem_nil, or_false,
      Prod.mk.injEq] at hreq
    rcases hreq with ⟨rfl, rfl⟩ | ⟨rfl, rfl⟩
    · have hres : (pluginExecute w .http "get" (.obj fields)).2 =
          errObj "url parameter is required" := by
        simp [pluginExecute, pluginHandler, HttpPlugin.handle_get, pyGet,
          habs, truthyOpt]
      rw [hres]; exact rfl
    · have hres : (pluginExecute w .http "post" (.obj fields)).2 =
          errObj "url parameter is required" := by
        simp [pluginExecute, pluginHandler, HttpPlugin.handle_post, pyGet,
          habs, truthyOpt]
      rw [hres]; exact rfl
  · rw [requiredInputs_calculator] at hreq
    simp only [List.mem_cons, List.not_mem_nil, or_false,
      Prod.mk.injEq] at hreq
    obtain ⟨rfl, rfl⟩ := hreq
    have hres : (pluginExecute w .calculator "calculate" (.obj fields)).2 =
        errObj "expression parameter is required" := by
      simp [pluginExecute, pluginHandler, CalculatorPlugin.handle_calculate,
        pyGet, habs, truthyOpt]
    rw [hres]; exact rfl

/-- Counterexample to C6 as stated: the file plugin catalog declares the
write action content parameter required, yet invoking write without it
succeeds — the handler silently substitutes the empty string, and the
response carries no error field at all. -/
theorem c6_write_content_counterexample :
    ("write", "content") ∈ requiredInputs (pluginCatalog .file) ∧
    jLookup [("path", JValue.str "/tmp/x")] "content" = none ∧
    (pluginExecute trivWorld .file "write"
        (.obj [("path", .str "/tmp/x")])).2 = .obj [("success", .bool true)] ∧
    ((pluginExecute trivWorld .file "write"
        (.obj [("path", .str "/tmp/x")])).2).getField "error" = none :=
  ⟨by decide, rfl, rfl, rfl⟩

/-- Witness for the amended C6: reading without a path yields the error
naming the path parameter. -/
theorem c6_required_param_error_amended_witness :
    (pluginExecute trivWorld .file "read" (.obj [])).2 =
      errObj ("path" ++ " parameter is required") :=
  c6_required_param_error_amended trivWorld .file "read" "path" []
    (by decide) (by decide) rfl

/-- Claim C7, confirmed at the dispatch level but refuted at one input: for
every plugin whose reader produced any params, invoking metadata or actions
returns the static metadata or the full catalog verbatim with exit code 0,
params ignored and the executor never entered; but the http plugin invoked
with introspection actions over empty piped stdin crashes before reaching
the dispatch, the same uncaught-seek code bug as C2. -/
theorem c7_introspection_verbatim_and_crash :
    (∀ (w : World) (pid : PluginId) (stdin : Stdin) (rest : List String)
        (ps : JValue), pluginRead w pid stdin = .ok ps →
        runPlugin w pid ("metadata" :: rest) stdin =
          (w, .exited [pluginMetadata pid] 0) ∧
        runPlugin w pid ("actions" :: rest) stdin =
          (w, .exited [pluginCatalog pid] 0)) ∧
    runPlugin trivWorld .http ["actions"] ⟨"", false⟩ =
      (trivWorld, .crashed [] "underlying stream is not seekable") := by
  refine ⟨?_, rfl⟩
  intro w pid stdin rest ps hread
  exact ⟨by simp [runPlugin, hread], by simp [runPlugin, hread]⟩

/-- Witness for C7: the file plugin returns its metadata verbatim. -/
theorem c7_introspection_verbatim_and_crash_witness :
    runPlugin trivWorld .file ["metadata"] ⟨"", true⟩ =
      (trivWorld, .exited [pluginMetadata .file] 0) :=
  (c7_introspection_verbatim_and_crash.1 trivWorld .file ⟨"", true⟩ []
    (.obj []) rfl).1

/-- Claim C8: for every file system, every non-empty path P and every
content string V, the file plugin write action on P and V reports success,
and a subsequent read of P returns exactly V. -/
theorem c8_write_read_roundtrip (w : World) (P V : String) (hP : P ≠ "") :
    (pluginExecute w .file "write"
        (.obj [("path", .str P), ("content", .str V)])).2 =
      .obj [("success", .bool true)] ∧
    (pluginExecute (pluginExecute w .file "write"
        (.obj [("path", .str P), ("content", .str V)])).1 .file "read"
        (.obj [("path", .str P)])).2 =
      .obj [("content", .str V)] := by
  have hw : pluginExecute w .file "write"
      (.obj [("path", .str P), ("content", .str V)]) =
      ({ w with fs := fsWrite w.fs P V }, .obj [("success", .bool true)]) := by
    simp [pluginExecute, pluginHandler, FilePlugin.handle_write, pyGet,
      jLookup, truthyOpt, JValue.truthy, hP, fsWrite]
  have hr : pluginExecute { w with fs := fsWrite w.fs P V } .file "read"
      (.obj [("path", .str P)]) =
      ({ w with fs := fsWrite w.fs P V }, .obj [("content", .str V)]) := by
    simp [pluginExecute, pluginHandler, FilePlugin.handle_read, pyGet,
      jLookup, truthyOpt, JValue.truthy, hP, fsWrite, fsLookup]
  rw [hw]
  exact ⟨rfl, by rw [hr]⟩

/-- Witness for C8: writing hello then reading it back at a concrete
path. -/
theorem c8_write_read_roundtrip_witness :
    (pluginExecute trivWorld .file "write"
        (.obj [("path", .str "/tmp/f"), ("content", .str "hello")])).2 =
      .obj [("success", .bool true)] ∧
    (pluginExecute (pluginExecute trivWorld .file "write"
        (.obj [("path", .str "/tmp/f"), ("content", .str "hello")])).1 .file
        "read" (.obj [("path", .str "/tmp/f")])).2 =
      .obj [("content", .str "hello")] :=
  c8_write_read_roundtrip trivWorld "/tmp/f" "hello" (by decide)

/-- Claim C9: a calculator plugin invocation leaves the world untouched, so
repeating the same invocation — same arguments, same stdin, same external
collaborators — produces the identical result: the calculate action is
deterministic and reproducible across invocations. -/
theorem c9_calculate_reproducible (w : World) (argv : List String)
    (stdin : Stdin) :
    (runPlugin w .calculator argv stdin).1 = w ∧
    runPlugin (runPlugin w .calculator argv stdin).1 .calculator argv stdin =
      runPlugin w .calculator argv stdin := by
  have h1 : (runPlugin w .calculator argv stdin).1 = w := by
    cases argv with
    | nil => rfl
    | cons a rest =>
      simp only [runPlugin, pluginRead]
      split_ifs <;> simp [pluginExecute_calculator_fst]
  exact ⟨h1, by rw [h1]⟩

/-- Claim C10: the file plugin treats a params object whose path is the
empty string exactly like one without a path: read and write both return
the path-required error, the required check being truthiness. -/
theorem c10_blank_path_equals_absent (w : World) (a : String)
    (fields : List (String × JValue))
    (ha : a = "read" ∨ a = "write")
    (hp : jLookup fields "path" = none ∨
      jLookup fields "path" = some (.str "")) :
    pluginExecute w .file a (.obj fields) =
      (w, errObj "path parameter is required") := by
  rcases ha with rfl | rfl
  · rcases hp with h | h <;>
      simp [pluginExecute, pluginHandler, FilePlugin.handle_read, pyGet, h,
        truthyOpt, JValue.truthy]
  · rcases hp with h | h <;>
      simp [pluginExecute, pluginHandler, FilePlugin.handle_write, pyGet, h,
        truthyOpt, JValue.truthy]

/-- Witness for C10: a params object carrying an explicitly empty path. -/
theorem c10_blank_path_equals_absent_witness :
    pluginExecute trivWorld .file "read" (.obj [("path", .str "")]) =
      (trivWorld, errObj "path parameter is required") :=
  c10_blank_path_equals_absent trivWorld "read" [("path", .str "")]
    (Or.inl rfl) (Or.inr rfl)

end Corynth
